import Mathlib

/-!
Verification of the ThrustyARMA binding resolver, axis transform pipeline,
event-loop sync discipline and device reconnection logic.

The development is a shallow embedding of `src/bindings.cpp` /
`src/bindings.hpp`, the relevant parts of `src/twcs_mapper.cpp` and
`src/virtual_device.cpp`:

* C++ `std::map` values are modelled as association lists; keyed lookup and
  keyed assignment follow `std::map::operator[]` semantics (replace the entry
  when the key is present, insert it otherwise).  The claims settled below do
  not depend on the sorted iteration order of `std::map`, so list order
  abstracts it.
* C++ `float` intermediate arithmetic is modelled exactly over `ℚ`;
  `static_cast<int>` on a non-negative/negative float truncates toward zero,
  modelled by `ratTrunc`.
* Machine integers (`int`, `uint16_t`) are modelled as `Int` / `Nat`; the
  values involved never approach overflow in the modelled scenarios.
* The write-only member `axis_selected_source` of `BindingResolver` (assigned
  in the constructor, never read) is omitted from the state.
-/

set_option autoImplicit false

namespace ThrustyARMA

/-! ## Association-list maps (model of `std::map`) -/

section MapModel

variable {α : Type} {β : Type} [DecidableEq α]

/-- First-match lookup, `std::map::find`. -/
def mfind? (m : List (α × β)) (k : α) : Option β :=
  match m with
  | [] => none
  | (k', v) :: rest => if k' = k then some v else mfind? rest k

/-- Lookup with a default, modelling `m.count(k) ? m[k] : d`. -/
def mfindD (m : List (α × β)) (k : α) (d : β) : β :=
  (mfind? m k).getD d

/-- Keyed assignment, `std::map::operator[] = v`: replace the entry when the
key is present, append it otherwise. -/
def minsert (m : List (α × β)) (k : α) (v : β) : List (α × β) :=
  match m with
  | [] => [(k, v)]
  | (k', v') :: rest =>
    if k' = k then (k, v) :: rest else (k', v') :: minsert rest k v

/-- Keys of an association list. -/
def mkeys (m : List (α × β)) : List α := m.map Prod.fst

end MapModel

/-! ## Data model (`src/bindings.hpp`) -/

/-- `enum class Role { Stick, Throttle, Rudder }`. -/
inductive Role where
  | Stick
  | Throttle
  | Rudder
deriving DecidableEq, Repr

/-- `enum class SrcKind { Key, Abs }`. -/
inductive SrcKind where
  | Key
  | Abs
deriving DecidableEq, Repr

/-- `struct PhysicalInput { Role role; SrcKind kind; uint16_t code; }`. -/
structure PhysicalInput where
  role : Role
  kind : SrcKind
  code : Nat
deriving DecidableEq, Repr

/-- `struct VirtualSlot { SrcKind kind; uint16_t code; }`. -/
structure VirtualSlot where
  kind : SrcKind
  code : Nat
deriving DecidableEq, Repr

/-- `struct AxisTransform` (the `scale`/`deadzone` fields are carried but not
read by `apply_axis_transform`). -/
structure AxisTransform where
  invert : Bool := false
  deadzone : Int := 0
  scale : ℚ := 1
  min_out : Int := 0
  max_out : Int := 0
deriving DecidableEq, Repr

/-- `struct AxisCalibration { observed_min, observed_max, center_value,
deadzone_radius }` (field names per the uses in `bindings.cpp`). -/
structure AxisCalibration where
  observed_min : Int
  observed_max : Int
  center_value : Int
  deadzone_radius : Int
deriving DecidableEq, Repr

/-- `struct Binding { PhysicalInput src; VirtualSlot dst; AxisTransform xform; }`. -/
structure Binding where
  src : PhysicalInput
  dst : VirtualSlot
  xform : AxisTransform
deriving DecidableEq, Repr

/-! Kernel evdev constants from `<linux/input-event-codes.h>`. -/

def BTN_SOUTH : Nat := 304
def BTN_EAST : Nat := 305
def BTN_NORTH : Nat := 307
def BTN_WEST : Nat := 308
def BTN_TL : Nat := 310
def BTN_TR : Nat := 311
def BTN_TL2 : Nat := 312
def BTN_TR2 : Nat := 313
def BTN_SELECT : Nat := 314
def BTN_START : Nat := 315
def BTN_MODE : Nat := 316
def BTN_THUMBL : Nat := 317
def BTN_THUMBR : Nat := 318
def BTN_DPAD_UP : Nat := 544
def BTN_DPAD_DOWN : Nat := 545
def BTN_DPAD_LEFT : Nat := 546
def BTN_DPAD_RIGHT : Nat := 547
def BTN_TRIGGER : Nat := 288
def BTN_THUMB : Nat := 289
def ABS_X : Nat := 0
def ABS_Y : Nat := 1
def ABS_Z : Nat := 2
def ABS_RX : Nat := 3
def ABS_RY : Nat := 4
def ABS_RZ : Nat := 5
def ABS_HAT0X : Nat := 16
def ABS_HAT0Y : Nat := 17
def EV_SYN : Nat := 0
def EV_KEY : Nat := 1
def EV_ABS : Nat := 3

/-- The button half of the virtual-controller contract
(`valid_buttons` in `BindingResolver::is_virtual_slot_valid`). -/
def valid_buttons : List Nat :=
  [BTN_SOUTH, BTN_EAST, BTN_WEST, BTN_NORTH,
   BTN_TL, BTN_TR, BTN_TL2, BTN_TR2,
   BTN_SELECT, BTN_START, BTN_MODE,
   BTN_THUMBL, BTN_THUMBR,
   BTN_DPAD_UP, BTN_DPAD_DOWN, BTN_DPAD_LEFT, BTN_DPAD_RIGHT]

/-- The axis half of the virtual-controller contract
(`valid_axes` in `BindingResolver::is_virtual_slot_valid`). -/
def valid_axes : List Nat :=
  [ABS_X, ABS_Y, ABS_RX, ABS_RY, ABS_Z, ABS_RZ, ABS_HAT0X, ABS_HAT0Y]

/-- `BindingResolver::is_virtual_slot_valid`. -/
def is_virtual_slot_valid (slot : VirtualSlot) : Bool :=
  if slot.kind = SrcKind.Key then
    decide (slot.code ∈ valid_buttons)
  else
    decide (slot.code ∈ valid_axes)

/-! ## Axis transform (`BindingResolver::apply_axis_transform`) -/

/-- `static_cast<int>` applied to a float value: truncation toward zero. -/
def ratTrunc (q : ℚ) : Int :=
  if q < 0 then -Rat.floor (-q) else Rat.floor q

/-- `std::max(xform.min_out, std::min(xform.max_out, output_value))`. -/
def clampInt (lo hi v : Int) : Int :=
  max lo (min hi v)

/-- Calibration store: `std::map<Role, std::map<int, AxisCalibration>>`. -/
abbrev CalibrationMap : Type := List (Role × List (Nat × AxisCalibration))

/-- The `is_centered` classification computed inside
`BindingResolver::apply_axis_transform`:
`(role == Role::Stick || role == Role::Rudder) &&
 (cal.center_value > cal.observed_min + 10) && (cal.deadzone_radius > 0)`. -/
def axis_is_centered (role : Role) (cal : AxisCalibration) : Bool :=
  (decide (role = Role.Stick) || decide (role = Role.Rudder)) &&
  decide (cal.center_value > cal.observed_min + 10) &&
  decide (cal.deadzone_radius > 0)

/-- The two-segment ("centered") branch of `apply_axis_transform`, before
inversion and clamping. -/
def centered_raw (cal : AxisCalibration) (xform : AxisTransform) (value : Int) : Int :=
  if |value - cal.center_value| < cal.deadzone_radius then
    0
  else if value < cal.center_value then
    let deadzone_edge := cal.center_value - cal.deadzone_radius
    let r : ℚ := ((value : ℚ) - (cal.observed_min : ℚ)) /
                 ((deadzone_edge : ℚ) - (cal.observed_min : ℚ))
    ratTrunc (r * ((0 : ℚ) - (xform.min_out : ℚ)) + (xform.min_out : ℚ))
  else
    let deadzone_edge := cal.center_value + cal.deadzone_radius
    let r : ℚ := ((value : ℚ) - (deadzone_edge : ℚ)) /
                 ((cal.observed_max : ℚ) - (deadzone_edge : ℚ))
    ratTrunc (r * (xform.max_out : ℚ))

/-- The single-segment ("unidirectional") branch of `apply_axis_transform`,
before inversion and clamping. -/
def unidirectional_raw (cal : AxisCalibration) (xform : AxisTransform) (value : Int) : Int :=
  let r : ℚ := ((value : ℚ) - (cal.observed_min : ℚ)) /
               ((cal.observed_max : ℚ) - (cal.observed_min : ℚ))
  ratTrunc (r * ((xform.max_out : ℚ) - (xform.min_out : ℚ)) + (xform.min_out : ℚ))

/-- `if (xform.invert) output_value = xform.max_out + xform.min_out - output_value`. -/
def apply_invert (xform : AxisTransform) (v : Int) : Int :=
  if xform.invert then xform.max_out + xform.min_out - v else v

/-- `BindingResolver::apply_axis_transform` (debug logging dropped). -/
def apply_axis_transform (calibrations : CalibrationMap) (value : Int)
    (xform : AxisTransform) (role : Role) (src_code : Nat) : Int :=
  match mfind? calibrations role with
  | some by_code =>
    match mfind? by_code src_code with
    | some cal =>
      let output_value :=
        if axis_is_centered role cal then centered_raw cal xform value
        else unidirectional_raw cal xform value
      clampInt xform.min_out xform.max_out (apply_invert xform output_value)
    | none =>
      -- No calibration data - pass through with simple scaling
      let r : ℚ := (value : ℚ) / 65535
      let r := if xform.invert then 1 - r else r
      clampInt xform.min_out xform.max_out
        (ratTrunc (r * ((xform.max_out : ℚ) - (xform.min_out : ℚ)) + (xform.min_out : ℚ)))
  | none =>
    let r : ℚ := (value : ℚ) / 65535
    let r := if xform.invert then 1 - r else r
    clampInt xform.min_out xform.max_out
      (ratTrunc (r * ((xform.max_out : ℚ) - (xform.min_out : ℚ)) + (xform.min_out : ℚ)))

/-! ## Resolver state (`class BindingResolver`) -/

/-- `std::map<VirtualSlot, std::map<Role, std::optional<int>>>`. -/
abbrev AxisValueMap : Type := List (VirtualSlot × List (Role × Option Int))

/-- The mutable state of `BindingResolver` (the write-only
`axis_selected_source` member is omitted). -/
structure ResolverState where
  bindings : List Binding
  button_refcounts : List (VirtualSlot × Nat)
  button_pressed_sources : List (VirtualSlot × List (PhysicalInput × Bool))
  axis_values : AxisValueMap
  last_output_values : List (VirtualSlot × Int)
  calibrations : CalibrationMap
deriving DecidableEq, Repr

/-- `BindingResolver::BindingResolver`: keep the full binding vector, and
pre-initialize per-slot state only for valid destination slots. -/
def init_resolver (bindings : List Binding) : ResolverState :=
  bindings.foldl
    (fun st binding =>
      if ¬ is_virtual_slot_valid binding.dst then st
      else if binding.dst.kind = SrcKind.Key then
        { st with button_refcounts := minsert st.button_refcounts binding.dst 0 }
      else
        { st with
            axis_values := minsert st.axis_values binding.dst
              [(Role.Stick, none), (Role.Throttle, none), (Role.Rudder, none)],
            last_output_values := minsert st.last_output_values binding.dst 0 })
    { bindings := bindings
      button_refcounts := []
      button_pressed_sources := []
      axis_values := []
      last_output_values := []
      calibrations := [] }

/-- `BindingResolver::set_calibration`. -/
def set_calibration (st : ResolverState) (role : Role) (src_code : Nat)
    (cal : AxisCalibration) : ResolverState :=
  { st with
      calibrations :=
        minsert st.calibrations role
          (minsert (mfindD st.calibrations role []) src_code cal) }

/-- `BindingResolver::process_input`: for every binding whose source triple
matches, update button source/refcount state or the per-role axis cache. -/
def process_input (st : ResolverState) (input : PhysicalInput) (value : Int) :
    ResolverState :=
  st.bindings.foldl
    (fun st binding =>
      if binding.src = input then
        if binding.dst.kind = SrcKind.Key then
          let srcs := minsert (mfindD st.button_pressed_sources binding.dst [])
            binding.src (decide (value ≠ 0))
          let refcount := (srcs.filter (fun p => p.2)).length
          { st with
              button_pressed_sources := minsert st.button_pressed_sources binding.dst srcs,
              button_refcounts := minsert st.button_refcounts binding.dst refcount }
        else
          let transformed_value :=
            apply_axis_transform st.calibrations value binding.xform input.role input.code
          { st with
              axis_values := minsert st.axis_values binding.dst
                (minsert (mfindD st.axis_values binding.dst []) input.role
                  (some transformed_value)) }
      else st)
    st

/-! ## Drain (`BindingResolver::get_pending_events`) -/

/-- The lambda `should_suppress_button_output` in `get_pending_events`. -/
def should_suppress_button_output (slot : VirtualSlot) : Bool :=
  decide (slot.kind = SrcKind.Key) &&
  (decide (slot.code = BTN_TL2) || decide (slot.code = BTN_TR2))

/-- The lambda `get_button_pressed` in `get_pending_events`. -/
def get_button_pressed (brc : List (VirtualSlot × Nat)) (btn_code : Nat) : Bool :=
  match mfind? brc ⟨SrcKind.Key, btn_code⟩ with
  | some rc => decide (rc > 0)
  | none => false

/-- The sequential `hat_x` computation in `get_pending_events`:
`hat_x = 0; if (left) hat_x = -1; if (right) hat_x = 1;`. -/
def dpadHatX (brc : List (VirtualSlot × Nat)) : Int :=
  let hx : Int := 0
  let hx := if get_button_pressed brc BTN_DPAD_LEFT then -1 else hx
  let hx := if get_button_pressed brc BTN_DPAD_RIGHT then 1 else hx
  hx

/-- The sequential `hat_y` computation in `get_pending_events`. -/
def dpadHatY (brc : List (VirtualSlot × Nat)) : Int :=
  let hy : Int := 0
  let hy := if get_button_pressed brc BTN_DPAD_UP then -1 else hy
  let hy := if get_button_pressed brc BTN_DPAD_DOWN then 1 else hy
  hy

/-- Write a synthesized value into `axis_values[slot][Role::Rudder]`, guarded
by slot validity (the body shared by the hat blocks and
`mirror_button_to_axis`). -/
def write_mirror_value (av : AxisValueMap) (axis_code : Nat) (v : Int) : AxisValueMap :=
  let axis_slot : VirtualSlot := ⟨SrcKind.Abs, axis_code⟩
  if ¬ is_virtual_slot_valid axis_slot then av
  else
    minsert av axis_slot (minsert (mfindD av axis_slot []) Role.Rudder (some v))

/-- The lambda `mirror_button_to_axis` in `get_pending_events`. -/
def mirror_button_to_axis (brc : List (VirtualSlot × Nat)) (av : AxisValueMap)
    (btn_code axis_code : Nat) (pressed_value released_value : Int) : AxisValueMap :=
  let pv := if get_button_pressed brc btn_code then pressed_value else released_value
  write_mirror_value av axis_code pv

/-- The button-to-axis mirroring block of `get_pending_events`: D-pad buttons
into the hat axes, trigger-click buttons into the trigger axes. -/
def mirror_step (brc : List (VirtualSlot × Nat)) (av : AxisValueMap) : AxisValueMap :=
  let av := write_mirror_value av ABS_HAT0X (dpadHatX brc)
  let av := write_mirror_value av ABS_HAT0Y (dpadHatY brc)
  let av := mirror_button_to_axis brc av BTN_TL2 ABS_Z 255 0
  mirror_button_to_axis brc av BTN_TR2 ABS_RZ 255 0

/-- Role-priority selection in the axis half of `get_pending_events`:
Stick > Throttle > Rudder; absent on all three roles yields 0. -/
def selectAxisValue (role_values : List (Role × Option Int)) : Int :=
  match mfind? role_values Role.Stick with
  | some (some v) => v
  | _ =>
    match mfind? role_values Role.Throttle with
    | some (some v) => v
    | _ =>
      match mfind? role_values Role.Rudder with
      | some (some v) => v
      | _ => 0

/-- Accumulator of one `get_pending_events` call: the events vector, the
`emitted_slots` set and the `last_output_values` map. -/
structure DrainAcc where
  events : List (VirtualSlot × Int)
  emitted : List VirtualSlot
  last_out : List (VirtualSlot × Int)
deriving DecidableEq, Repr

/-- The first (button) loop of `get_pending_events`. -/
def drainButtonsLoop (entries : List (VirtualSlot × Nat)) (acc : DrainAcc) : DrainAcc :=
  match entries with
  | [] => acc
  | (slot, refcount) :: rest =>
    if ¬ is_virtual_slot_valid slot then drainButtonsLoop rest acc
    else if slot ∈ acc.emitted then drainButtonsLoop rest acc
    else
      let last_value := mfindD acc.last_out slot 0
      let current_value : Int := if refcount > 0 then 1 else 0
      if last_value = current_value then drainButtonsLoop rest acc
      else
        let acc' : DrainAcc := { acc with last_out := minsert acc.last_out slot current_value }
        if should_suppress_button_output slot then drainButtonsLoop rest acc'
        else
          drainButtonsLoop rest
            { acc' with
                events := acc'.events ++ [(slot, current_value)],
                emitted := slot :: acc'.emitted }

/-- The second (axis) loop of `get_pending_events`, run after mirroring. -/
def drainAxesLoop (entries : AxisValueMap) (acc : DrainAcc) : DrainAcc :=
  match entries with
  | [] => acc
  | (slot, role_values) :: rest =>
    if ¬ is_virtual_slot_valid slot then drainAxesLoop rest acc
    else if slot ∈ acc.emitted then drainAxesLoop rest acc
    else
      let current_value := selectAxisValue role_values
      let last_value := mfindD acc.last_out slot 0
      if last_value ≠ current_value then
        drainAxesLoop rest
          { events := acc.events ++ [(slot, current_value)],
            emitted := slot :: acc.emitted,
            last_out := minsert acc.last_out slot current_value }
      else drainAxesLoop rest acc

/-- `BindingResolver::get_pending_events`: drain the button slots, mirror
button state into the hat/trigger axes, then drain the axis slots.  Returns
the emitted events and the updated resolver state. -/
def get_pending_events (st : ResolverState) :
    List (VirtualSlot × Int) × ResolverState :=
  let acc0 : DrainAcc := ⟨[], [], st.last_output_values⟩
  let acc1 := drainButtonsLoop st.button_refcounts acc0
  let av := mirror_step st.button_refcounts st.axis_values
  let acc2 := drainAxesLoop av acc1
  (acc2.events,
   { st with axis_values := av, last_output_values := acc2.last_out })

/-! ## Event loop (inner per-event handling in `main`, `twcs_mapper.cpp`)

One successfully read input event is dispatched to the resolver (for `EV_ABS`
and `EV_KEY`), the resolver is drained into the virtual device, and a sync
marker is written `if (events_emitted || ev.type == EV_SYN)`.  The virtual
device is modelled as always ready, so every `write_event` succeeds and
`events_emitted` is exactly "the drain was non-empty". -/

/-- One item written to the uinput queue: an output event or a
`SYN_REPORT` marker (`VirtualDevice::write_event` / `VirtualDevice::emit_sync`). -/
inductive WireItem where
  | ev (slot : VirtualSlot) (value : Int)
  | sync
deriving DecidableEq, Repr

/-- `WireItem` discriminator for the sync marker. -/
def WireItem.isSync : WireItem → Bool
  | .sync => true
  | .ev _ _ => false

/-- The `switch (ev.type)` dispatch of one decoded input event: `EV_ABS` and
`EV_KEY` go to the resolver, `EV_SYN` (and any other type) does not. -/
def dispatch_input (st : ResolverState) (role : Role) (etype : Nat)
    (code : Nat) (value : Int) : ResolverState :=
  if etype = EV_ABS then process_input st ⟨role, SrcKind.Abs, code⟩ value
  else if etype = EV_KEY then process_input st ⟨role, SrcKind.Key, code⟩ value
  else st

/-- Handling of one decoded input event inside the event loop of `main`:
dispatch, drain, write the pending events, then write one sync marker
`if (events_emitted || ev.type == EV_SYN)`. -/
def handle_event (st : ResolverState) (role : Role) (etype : Nat) (code : Nat)
    (value : Int) : ResolverState × List WireItem :=
  let drained := get_pending_events (dispatch_input st role etype code value)
  let wire := drained.1.map (fun p => WireItem.ev p.1 p.2)
  let events_emitted := decide (drained.1 ≠ [])
  if events_emitted || decide (etype = EV_SYN) then
    (drained.2, wire ++ [WireItem.sync])
  else
    (drained.2, wire)

/-- A sequence of decoded input events handled one after the other; the wire
outputs of the iterations are concatenated. -/
def run_events (st : ResolverState) (evs : List (Role × Nat × Nat × Int)) :
    ResolverState × List WireItem :=
  match evs with
  | [] => (st, [])
  | (role, etype, code, value) :: rest =>
    let out := handle_event st role etype code value
    let outRest := run_events out.1 rest
    (outRest.1, out.2 ++ outRest.2)

/-! ## Device reconnection (`twcs_mapper.cpp`) -/

/-- The fields of `struct InputDevice` that `attempt_device_reconnection`
reads or writes (timestamps in milliseconds). -/
structure InputDevice where
  online : Bool
  optional : Bool
  last_reconnect_attempt : Int
  reconnect_backoff_ms : Int
deriving DecidableEq, Repr

/-- `attempt_device_reconnection`, with the outcome of `reopen_device`
supplied as the parameter `reopen_ok` (on success `reopen_device` itself sets
`online := true` and resets the backoff; the caller resets it again).  The
returned flag records whether a reopen was attempted. -/
def attempt_device_reconnection (reopen_ok : Bool) (now : Int)
    (d : InputDevice) : InputDevice × Bool :=
  if d.online || d.optional then (d, false)
  else
    let time_since_attempt := now - d.last_reconnect_attempt
    if time_since_attempt ≥ d.reconnect_backoff_ms then
      if reopen_ok then
        ({ d with
            last_reconnect_attempt := now,
            online := true,
            reconnect_backoff_ms := 500 }, true)
      else
        ({ d with
            last_reconnect_attempt := now,
            reconnect_backoff_ms := min 2000 (d.reconnect_backoff_ms * 2) }, true)
    else (d, false)

/-! ## Concrete scenarios -/

/-- D-pad scenario bindings: the stick's D-pad LEFT/RIGHT buttons bound to the
matching virtual D-pad buttons (spec §8 scenario 5). -/
def dpad_bindings : List Binding :=
  [⟨⟨Role.Stick, SrcKind.Key, BTN_DPAD_LEFT⟩, ⟨SrcKind.Key, BTN_DPAD_LEFT⟩, {}⟩,
   ⟨⟨Role.Stick, SrcKind.Key, BTN_DPAD_RIGHT⟩, ⟨SrcKind.Key, BTN_DPAD_RIGHT⟩, {}⟩]

/-- D-pad scenario: state after pressing DPAD_LEFT. -/
def dpad_state1 : ResolverState :=
  process_input (init_resolver dpad_bindings) ⟨Role.Stick, SrcKind.Key, BTN_DPAD_LEFT⟩ 1

/-- D-pad scenario: first drain (after pressing DPAD_LEFT). -/
def dpad_drain1 : List (VirtualSlot × Int) × ResolverState :=
  get_pending_events dpad_state1

/-- D-pad scenario: state after also pressing DPAD_RIGHT. -/
def dpad_state2 : ResolverState :=
  process_input dpad_drain1.2 ⟨Role.Stick, SrcKind.Key, BTN_DPAD_RIGHT⟩ 1

/-- D-pad scenario: second drain (LEFT and RIGHT both held). -/
def dpad_drain2 : List (VirtualSlot × Int) × ResolverState :=
  get_pending_events dpad_state2

/-- D-pad scenario: state after releasing DPAD_LEFT (RIGHT still held). -/
def dpad_state3 : ResolverState :=
  process_input dpad_drain2.2 ⟨Role.Stick, SrcKind.Key, BTN_DPAD_LEFT⟩ 0

/-- D-pad scenario: third drain (after releasing DPAD_LEFT). -/
def dpad_drain3 : List (VirtualSlot × Int) × ResolverState :=
  get_pending_events dpad_state3

/-- Rudder-mirror scenario: a Rudder-role analog binding onto ABS_RZ, the slot
also targeted by the BTN_TR2 trigger mirror (this is the default rudder
binding of `make_default_bindings`). -/
def rudder_rz_bindings : List Binding :=
  [⟨⟨Role.Rudder, SrcKind.Abs, ABS_RZ⟩, ⟨SrcKind.Abs, ABS_RZ⟩,
    {min_out := 0, max_out := 255}⟩]

/-- Rudder-mirror scenario: calibrated resolver after processing raw rudder
value 1000, whose transformed value 255 is cached under `Role::Rudder`. -/
def rudder_rz_state : ResolverState :=
  process_input
    (set_calibration (init_resolver rudder_rz_bindings) Role.Rudder ABS_RZ ⟨0, 1000, 0, 0⟩)
    ⟨Role.Rudder, SrcKind.Abs, ABS_RZ⟩ 1000

/-- Rudder-mirror scenario: the drain following the rudder movement. -/
def rudder_rz_drain : List (VirtualSlot × Int) × ResolverState :=
  get_pending_events rudder_rz_state

/-- Throttle-mirror scenario: a Throttle-role analog binding onto ABS_Z, the
slot also targeted by the BTN_TL2 trigger mirror. -/
def throttle_z_bindings : List Binding :=
  [⟨⟨Role.Throttle, SrcKind.Abs, ABS_Z⟩, ⟨SrcKind.Abs, ABS_Z⟩,
    {min_out := 0, max_out := 255}⟩]

/-- Throttle-mirror scenario: calibrated resolver after processing raw
throttle value 1000 (transformed value 255 cached under `Role::Throttle`). -/
def throttle_z_state : ResolverState :=
  process_input
    (set_calibration (init_resolver throttle_z_bindings) Role.Throttle ABS_Z ⟨0, 1000, 0, 0⟩)
    ⟨Role.Throttle, SrcKind.Abs, ABS_Z⟩ 1000

/-- Throttle-mirror scenario: the drain following the throttle movement. -/
def throttle_z_drain : List (VirtualSlot × Int) × ResolverState :=
  get_pending_events throttle_z_state

/-- Fan-in scenario bindings (spec §8 scenario 1): the same physical trigger
button on stick and throttle both bound to virtual BTN_SOUTH. -/
def fanin_bindings : List Binding :=
  [⟨⟨Role.Stick, SrcKind.Key, BTN_TRIGGER⟩, ⟨SrcKind.Key, BTN_SOUTH⟩, {}⟩,
   ⟨⟨Role.Throttle, SrcKind.Key, BTN_TRIGGER⟩, ⟨SrcKind.Key, BTN_SOUTH⟩, {}⟩]

/-- Fan-in scenario: drain after pressing the stick trigger. -/
def fanin_drain1 : List (VirtualSlot × Int) × ResolverState :=
  get_pending_events
    (process_input (init_resolver fanin_bindings) ⟨Role.Stick, SrcKind.Key, BTN_TRIGGER⟩ 1)

/-- Fan-in scenario: drain after also pressing the throttle trigger. -/
def fanin_drain2 : List (VirtualSlot × Int) × ResolverState :=
  get_pending_events
    (process_input fanin_drain1.2 ⟨Role.Throttle, SrcKind.Key, BTN_TRIGGER⟩ 1)

/-- Fan-in scenario: drain after releasing the stick trigger. -/
def fanin_drain3 : List (VirtualSlot × Int) × ResolverState :=
  get_pending_events
    (process_input fanin_drain2.2 ⟨Role.Stick, SrcKind.Key, BTN_TRIGGER⟩ 0)

/-- Fan-in scenario: drain after releasing the throttle trigger. -/
def fanin_drain4 : List (VirtualSlot × Int) × ResolverState :=
  get_pending_events
    (process_input fanin_drain3.2 ⟨Role.Throttle, SrcKind.Key, BTN_TRIGGER⟩ 0)

/-- Sync scenario: the event loop fed two consecutive `EV_SYN` input events
from a converged resolver (as an idle evdev source produces). -/
def syn_run : ResolverState × List WireItem :=
  run_events (init_resolver [])
    [(Role.Stick, EV_SYN, 0, 0), (Role.Stick, EV_SYN, 0, 0)]

/-- Sync-scenario binding list for the witness iteration: one D-pad button. -/
def syn_witness_bindings : List Binding :=
  [⟨⟨Role.Stick, SrcKind.Key, BTN_DPAD_UP⟩, ⟨SrcKind.Key, BTN_DPAD_UP⟩, {}⟩]

/-- Invalid-destination scenario: a binding whose destination button code 30
(`KEY_A`) is outside the virtual-controller contract. -/
def invalid_dst_bindings : List Binding :=
  [⟨⟨Role.Stick, SrcKind.Key, BTN_TRIGGER⟩, ⟨SrcKind.Key, 30⟩, {}⟩]

/-- Invalid-destination scenario: state after processing a press of the bound
source button. -/
def invalid_dst_state : ResolverState :=
  process_input (init_resolver invalid_dst_bindings) ⟨Role.Stick, SrcKind.Key, BTN_TRIGGER⟩ 1

/-- An offline optional rudder device, unplugged since t = 0 ms, initial
backoff 500 ms. -/
def offline_optional_device : InputDevice :=
  { online := false, optional := true, last_reconnect_attempt := 0,
    reconnect_backoff_ms := 500 }

/-- Calibration used for the classification counterexamples: plainly centered
per the spec's ε-rule (center − min = 600 > ε, max − center = 400 > ε). -/
def centered_cal : AxisCalibration := ⟨0, 1000, 600, 50⟩

/-- Output spec used for the classification counterexamples. -/
def range100_xform : AxisTransform := {min_out := -100, max_out := 100}

/-- Calibration of spec §8 scenario 3 (`observed_min=0, center=600,
observed_max=1023, deadzone_radius=5`). -/
def stick_cal : AxisCalibration := ⟨0, 1023, 600, 5⟩

/-- Inverted full-range stick output spec. -/
def inverted_stick_xform : AxisTransform :=
  {invert := true, min_out := -32768, max_out := 32767}

/-- Resolver-state well-formedness, maintained by construction and by
`process_input`: each `std::map` holds each key once, keys of the button maps
are button slots, keys of the axis map are axis slots. -/
abbrev ResolverWF (st : ResolverState) : Prop :=
  (mkeys st.button_refcounts).Nodup
  ∧ (∀ s ∈ mkeys st.button_refcounts, s.kind = SrcKind.Key)
  ∧ (mkeys st.axis_values).Nodup
  ∧ (∀ s ∈ mkeys st.axis_values, s.kind = SrcKind.Abs)

/-- Invariant carried through the two loops of `get_pending_events`, stated
relative to the pre-drain `last_output_values` map `L0`. -/
abbrev DrainInv (L0 : List (VirtualSlot × Int)) (acc : DrainAcc) : Prop :=
  (∀ p ∈ acc.events, p.2 ≠ mfindD L0 p.1 0)
  ∧ (∀ p ∈ acc.events, mfindD acc.last_out p.1 0 = p.2)
  ∧ (mkeys acc.events).Nodup
  ∧ (∀ p ∈ acc.events, p.1 ∈ acc.emitted)

/-- Witness state for the drain invariants: a single South-button binding,
with the source button just pressed. -/
def edge_witness_state : ResolverState :=
  process_input
    (init_resolver [⟨⟨Role.Stick, SrcKind.Key, BTN_THUMB⟩, ⟨SrcKind.Key, BTN_SOUTH⟩, {}⟩])
    ⟨Role.Stick, SrcKind.Key, BTN_THUMB⟩ 1

/-! ## Theorems -/

section MapLemmas

variable {α : Type} {β : Type} [DecidableEq α]

theorem mfind_minsert_self (m : List (α × β)) (k : α) (v : β) :
    mfind? (minsert m k v) k = some v := by
  induction m with
  | nil => simp [minsert, mfind?]
  | cons p rest ih =>
    obtain ⟨k', v'⟩ := p
    by_cases h : k' = k <;> simp [minsert, mfind?, h, ih]

theorem mfind_minsert_other (m : List (α × β)) (k k' : α) (v : β)
    (hne : k' ≠ k) : mfind? (minsert m k v) k' = mfind? m k' := by
  induction m with
  | nil => simp [minsert, mfind?, Ne.symm hne]
  | cons p rest ih =>
    obtain ⟨k₀, v₀⟩ := p
    by_cases h : k₀ = k
    · subst h
      simp [minsert, mfind?, Ne.symm hne]
    · by_cases h' : k₀ = k'
      · subst h'
        simp [minsert, mfind?, h]
      · simp [minsert, mfind?, h, h', ih]

theorem mfindD_minsert_self (m : List (α × β)) (k : α) (v d : β) :
    mfindD (minsert m k v) k d = v := by
  simp [mfindD, mfind_minsert_self]

theorem mfindD_minsert_other (m : List (α × β)) (k k' : α) (v : β) (d : β)
    (hne : k' ≠ k) : mfindD (minsert m k v) k' d = mfindD m k' d := by
  simp [mfindD, mfind_minsert_other m k k' v hne]

theorem mkeys_minsert (m : List (α × β)) (k : α) (v : β) :
    mkeys (minsert m k v) = mkeys m ∨ mkeys (minsert m k v) = mkeys m ++ [k] := by
  induction m with
  | nil => right; simp [minsert, mkeys]
  | cons p rest ih =>
    obtain ⟨k₀, v₀⟩ := p
    by_cases h : k₀ = k
    · left; simp [minsert, mkeys, h]
    · rcases ih with ih | ih
      · left; simp [minsert, mkeys, h] at ih ⊢; exact ih
      · right; simp [minsert, mkeys, h] at ih ⊢; exact ih

theorem mem_mkeys_minsert {m : List (α × β)} {k : α} {v : β} {s : α}
    (hs : s ∈ mkeys (minsert m k v)) : s ∈ mkeys m ∨ s = k := by
  rcases mkeys_minsert m k v with h | h
  · rw [h] at hs; exact Or.inl hs
  · rw [h] at hs
    rcases List.mem_append.mp hs with h' | h'
    · exact Or.inl h'
    · exact Or.inr (List.mem_singleton.mp h')

theorem nodup_mkeys_minsert {m : List (α × β)} {k : α} {v : β}
    (hm : (mkeys m).Nodup) : (mkeys (minsert m k v)).Nodup := by
  induction m with
  | nil => simp [minsert, mkeys]
  | cons p rest ih =>
    obtain ⟨k₀, v₀⟩ := p
    simp only [mkeys, List.map_cons, List.nodup_cons] at hm
    by_cases h : k₀ = k
    · subst h
      simpa [minsert, mkeys, List.nodup_cons] using hm
    · have hrest := ih hm.2
      have hnotmem : k₀ ∉ mkeys (minsert rest k v) := by
        intro hmem
        rcases mem_mkeys_minsert hmem with h' | h'
        · exact hm.1 (by simpa [mkeys] using h')
        · exact h h'
      simp only [minsert, if_neg h, mkeys, List.map_cons, List.nodup_cons]
      exact ⟨by simpa [mkeys] using hnotmem, by simpa [mkeys] using hrest⟩

end MapLemmas

/-! ### Mirror-write helper lemmas -/

theorem write_mirror_value_valid (av : AxisValueMap) (code : Nat) (v : Int)
    (h : is_virtual_slot_valid ⟨SrcKind.Abs, code⟩ = true) :
    write_mirror_value av code v
      = minsert av ⟨SrcKind.Abs, code⟩
          (minsert (mfindD av ⟨SrcKind.Abs, code⟩ []) Role.Rudder (some v)) := by
  unfold write_mirror_value
  rw [if_neg (not_not_intro h)]

theorem write_mirror_value_preserves_role (av : AxisValueMap) (code : Nat)
    (v : Int) (slot : VirtualSlot) (role : Role) (hrole : role ≠ Role.Rudder) :
    mfindD (mfindD (write_mirror_value av code v) slot []) role none
      = mfindD (mfindD av slot []) role none := by
  unfold write_mirror_value
  by_cases hval : is_virtual_slot_valid ⟨SrcKind.Abs, code⟩ = true
  · rw [if_neg (not_not_intro hval)]
    by_cases hs : slot = (⟨SrcKind.Abs, code⟩ : VirtualSlot)
    · subst hs
      rw [mfindD_minsert_self, mfindD_minsert_other _ _ _ _ _ hrole]
    · rw [mfindD_minsert_other _ _ _ _ _ hs]
  · rw [if_pos hval]

theorem mirror_step_preserves_role (brc : List (VirtualSlot × Nat))
    (av : AxisValueMap) (slot : VirtualSlot) (role : Role)
    (hrole : role ≠ Role.Rudder) :
    mfindD (mfindD (mirror_step brc av) slot []) role none
      = mfindD (mfindD av slot []) role none := by
  simp only [mirror_step, mirror_button_to_axis]
  rw [write_mirror_value_preserves_role _ _ _ _ _ hrole,
      write_mirror_value_preserves_role _ _ _ _ _ hrole,
      write_mirror_value_preserves_role _ _ _ _ _ hrole,
      write_mirror_value_preserves_role _ _ _ _ _ hrole]

/-! ### Wire-output and drain-validity helper lemmas -/

theorem filter_isSync_map_ev (evs : List (VirtualSlot × Int)) :
    (evs.map (fun p => WireItem.ev p.1 p.2)).filter WireItem.isSync = [] := by
  induction evs with
  | nil => rfl
  | cons p rest ih =>
    simp only [List.map_cons, List.filter_cons]
    simp [WireItem.isSync, ih]

theorem drainButtonsLoop_events_valid (entries : List (VirtualSlot × Nat))
    (acc : DrainAcc)
    (h : ∀ p ∈ acc.events, is_virtual_slot_valid p.1 = true) :
    ∀ p ∈ (drainButtonsLoop entries acc).events, is_virtual_slot_valid p.1 = true := by
  induction entries generalizing acc with
  | nil => exact h
  | cons e rest ih =>
    obtain ⟨slot, rc⟩ := e
    simp only [drainButtonsLoop]
    by_cases h1 : ¬ is_virtual_slot_valid slot = true
    · rw [if_pos h1]
      exact ih acc h
    · rw [if_neg h1]
      by_cases h2 : slot ∈ acc.emitted
      · rw [if_pos h2]
        exact ih acc h
      · rw [if_neg h2]
        by_cases h3 : mfindD acc.last_out slot 0 = (if rc > 0 then (1 : Int) else 0)
        · rw [if_pos h3]
          exact ih acc h
        · rw [if_neg h3]
          by_cases h4 : should_suppress_button_output slot = true
          · rw [if_pos h4]
            exact ih _ h
          · rw [if_neg h4]
            refine ih _ ?_
            intro p hp
            rcases List.mem_append.mp hp with hp | hp
            · exact h p hp
            · rw [List.mem_singleton.mp hp]
              exact not_not.mp h1

theorem drainAxesLoop_events_valid (entries : AxisValueMap) (acc : DrainAcc)
    (h : ∀ p ∈ acc.events, is_virtual_slot_valid p.1 = true) :
    ∀ p ∈ (drainAxesLoop entries acc).events, is_virtual_slot_valid p.1 = true := by
  induction entries generalizing acc with
  | nil => exact h
  | cons e rest ih =>
    obtain ⟨slot, rv⟩ := e
    simp only [drainAxesLoop]
    by_cases h1 : ¬ is_virtual_slot_valid slot = true
    · rw [if_pos h1]
      exact ih acc h
    · rw [if_neg h1]
      by_cases h2 : slot ∈ acc.emitted
      · rw [if_pos h2]
        exact ih acc h
      · rw [if_neg h2]
        by_cases h3 : mfindD acc.last_out slot 0 ≠ selectAxisValue rv
        · rw [if_pos h3]
          refine ih _ ?_
          intro p hp
          rcases List.mem_append.mp hp with hp | hp
          · exact h p hp
          · rw [List.mem_singleton.mp hp]
            exact not_not.mp h1
        · rw [if_neg h3]
          exact ih acc h

theorem drain_events_valid (st : ResolverState) :
    ∀ p ∈ (get_pending_events st).1, is_virtual_slot_valid p.1 = true := by
  intro p hp
  have h0 : ∀ q ∈ (⟨[], [], st.last_output_values⟩ : DrainAcc).events,
      is_virtual_slot_valid q.1 = true := by
    intro q hq
    simp at hq
  exact drainAxesLoop_events_valid _ _
    (drainButtonsLoop_events_valid _ _ h0) p hp

theorem nodup_append_singleton {γ : Type} {l : List γ} {a : γ}
    (h : l.Nodup) (ha : a ∉ l) : (l ++ [a]).Nodup := by
  simp [List.nodup_append, h, ha]

/-! ### Drain loop specifications (for the edge-detection invariants) -/

theorem drainButtonsLoop_spec (L0 : List (VirtualSlot × Int))
    (entries : List (VirtualSlot × Nat)) (acc : DrainAcc)
    (hinv : DrainInv L0 acc)
    (hnodup : (mkeys entries).Nodup)
    (hfresh : ∀ s ∈ mkeys entries, mfindD acc.last_out s 0 = mfindD L0 s 0) :
    DrainInv L0 (drainButtonsLoop entries acc)
    ∧ (∀ s, s ∉ mkeys entries →
        mfindD (drainButtonsLoop entries acc).last_out s 0
          = mfindD acc.last_out s 0)
    ∧ (∀ s, s ∉ mkeys entries →
        (s ∈ (drainButtonsLoop entries acc).emitted ↔ s ∈ acc.emitted)) := by
  induction entries generalizing acc with
  | nil => exact ⟨hinv, fun s _ => rfl, fun s _ => Iff.rfl⟩
  | cons e rest ih =>
    obtain ⟨slot, rc⟩ := e
    have hnd : (mkeys rest).Nodup := (List.nodup_cons.mp (by simpa [mkeys] using hnodup)).2
    have hslotnotin : slot ∉ mkeys rest :=
      (List.nodup_cons.mp (by simpa [mkeys] using hnodup)).1
    have hne_of_mem : ∀ s ∈ mkeys rest, s ≠ slot := fun s hs heq =>
      hslotnotin (heq ▸ hs)
    have hnotcons : ∀ s, s ∉ mkeys ((slot, rc) :: rest) → s ≠ slot ∧ s ∉ mkeys rest := by
      intro s hs
      constructor
      · intro heq
        exact hs (by simp [mkeys, heq])
      · intro hmem
        exact hs (by simp [mkeys] at hmem ⊢; exact Or.inr hmem)
    simp only [drainButtonsLoop]
    by_cases h1 : ¬ is_virtual_slot_valid slot = true
    · rw [if_pos h1]
      have hres := ih acc hinv hnd (fun s hs => hfresh s (by simp [mkeys] at hs ⊢; exact Or.inr hs))
      exact ⟨hres.1,
        fun s hs => hres.2.1 s (hnotcons s hs).2,
        fun s hs => hres.2.2 s (hnotcons s hs).2⟩
    · rw [if_neg h1]
      by_cases h2 : slot ∈ acc.emitted
      · rw [if_pos h2]
        have hres := ih acc hinv hnd (fun s hs => hfresh s (by simp [mkeys] at hs ⊢; exact Or.inr hs))
        exact ⟨hres.1,
          fun s hs => hres.2.1 s (hnotcons s hs).2,
          fun s hs => hres.2.2 s (hnotcons s hs).2⟩
      · rw [if_neg h2]
        set cv : Int := if rc > 0 then 1 else 0 with hcv
        by_cases h3 : mfindD acc.last_out slot 0 = cv
        · rw [if_pos h3]
          have hres := ih acc hinv hnd (fun s hs => hfresh s (by simp [mkeys] at hs ⊢; exact Or.inr hs))
          exact ⟨hres.1,
            fun s hs => hres.2.1 s (hnotcons s hs).2,
            fun s hs => hres.2.2 s (hnotcons s hs).2⟩
        · rw [if_neg h3]
          have hslot_fresh : mfindD acc.last_out slot 0 = mfindD L0 slot 0 :=
            hfresh slot (by simp [mkeys])
          have hfresh' : ∀ (lo : List (VirtualSlot × Int)), ∀ s ∈ mkeys rest,
              mfindD (minsert lo slot cv) s 0 = mfindD lo s 0 := by
            intro lo s hs
            exact mfindD_minsert_other _ _ _ _ _ (hne_of_mem s hs)
          have hnotslot_events : ∀ p ∈ acc.events, p.1 ≠ slot := by
            intro p hp heq
            exact h2 (heq ▸ hinv.2.2.2 p hp)
          by_cases h4 : should_suppress_button_output slot = true
          · rw [if_pos h4]
            have hinv' : DrainInv L0
                { acc with last_out := minsert acc.last_out slot cv } := by
              refine ⟨hinv.1, ?_, hinv.2.2.1, hinv.2.2.2⟩
              intro p hp
              rw [mfindD_minsert_other _ _ _ _ _ (hnotslot_events p hp)]
              exact hinv.2.1 p hp
            have hres := ih _ hinv' hnd (fun s hs => by
              rw [hfresh' acc.last_out s hs]
              exact hfresh s (by simp [mkeys] at hs ⊢; exact Or.inr hs))
            refine ⟨hres.1, fun s hs => ?_, fun s hs => hres.2.2 s (hnotcons s hs).2⟩
            rw [hres.2.1 s (hnotcons s hs).2]
            exact mfindD_minsert_other _ _ _ _ _ (hnotcons s hs).1
          · rw [if_neg h4]
            have hinv' : DrainInv L0
                { events := acc.events ++ [(slot, cv)],
                  emitted := slot :: acc.emitted,
                  last_out := minsert acc.last_out slot cv } := by
              refine ⟨?_, ?_, ?_, ?_⟩
              · intro p hp
                rcases List.mem_append.mp hp with hp | hp
                · exact hinv.1 p hp
                · rw [List.mem_singleton.mp hp]
                  rw [← hslot_fresh]
                  exact fun heq => h3 heq.symm
              · intro p hp
                rcases List.mem_append.mp hp with hp | hp
                · rw [mfindD_minsert_other _ _ _ _ _ (hnotslot_events p hp)]
                  exact hinv.2.1 p hp
                · rw [List.mem_singleton.mp hp]
                  exact mfindD_minsert_self _ _ _ _
              · have hkeys : mkeys (acc.events ++ [(slot, cv)])
                    = mkeys acc.events ++ [slot] := by
                  simp [mkeys]
                rw [hkeys]
                refine nodup_append_singleton hinv.2.2.1 ?_
                intro hmem
                simp only [mkeys, List.mem_map] at hmem
                obtain ⟨p, hp, hps⟩ := hmem
                exact hnotslot_events p hp hps
              · intro p hp
                rcases List.mem_append.mp hp with hp | hp
                · exact List.mem_cons_of_mem _ (hinv.2.2.2 p hp)
                · rw [List.mem_singleton.mp hp]
                  exact List.mem_cons_self _ _
            have hres := ih _ hinv' hnd (fun s hs => by
              show mfindD (minsert acc.last_out slot cv) s 0 = mfindD L0 s 0
              rw [hfresh' acc.last_out s hs]
              exact hfresh s (by simp [mkeys] at hs ⊢; exact Or.inr hs))
            refine ⟨hres.1, fun s hs => ?_, fun s hs => ?_⟩
            · rw [hres.2.1 s (hnotcons s hs).2]
              exact mfindD_minsert_other _ _ _ _ _ (hnotcons s hs).1
            · rw [hres.2.2 s (hnotcons s hs).2]
              simp only [List.mem_cons]
              exact ⟨fun h => h.elim (fun heq => absurd heq (hnotcons s hs).1) id,
                Or.inr⟩

theorem drainAxesLoop_spec (L0 : List (VirtualSlot × Int))
    (entries : AxisValueMap) (acc : DrainAcc)
    (hinv : DrainInv L0 acc)
    (hnodup : (mkeys entries).Nodup)
    (hfresh : ∀ s ∈ mkeys entries, mfindD acc.last_out s 0 = mfindD L0 s 0) :
    DrainInv L0 (drainAxesLoop entries acc)
    ∧ (∀ s, s ∉ mkeys entries →
        mfindD (drainAxesLoop entries acc).last_out s 0
          = mfindD acc.last_out s 0)
    ∧ (∀ s, s ∉ mkeys entries →
        (s ∈ (drainAxesLoop entries acc).emitted ↔ s ∈ acc.emitted)) := by
  induction entries generalizing acc with
  | nil => exact ⟨hinv, fun s _ => rfl, fun s _ => Iff.rfl⟩
  | cons e rest ih =>
    obtain ⟨slot, rv⟩ := e
    have hnd : (mkeys rest).Nodup := (List.nodup_cons.mp (by simpa [mkeys] using hnodup)).2
    have hslotnotin : slot ∉ mkeys rest :=
      (List.nodup_cons.mp (by simpa [mkeys] using hnodup)).1
    have hne_of_mem : ∀ s ∈ mkeys rest, s ≠ slot := fun s hs heq =>
      hslotnotin (heq ▸ hs)
    have hnotcons : ∀ s, s ∉ mkeys ((slot, rv) :: rest) → s ≠ slot ∧ s ∉ mkeys rest := by
      intro s hs
      constructor
      · intro heq
        exact hs (by simp [mkeys, heq])
      · intro hmem
        exact hs (by simp [mkeys] at hmem ⊢; exact Or.inr hmem)
    simp only [drainAxesLoop]
    by_cases h1 : ¬ is_virtual_slot_valid slot = true
    · rw [if_pos h1]
      have hres := ih acc hinv hnd (fun s hs => hfresh s (by simp [mkeys] at hs ⊢; exact Or.inr hs))
      exact ⟨hres.1,
        fun s hs => hres.2.1 s (hnotcons s hs).2,
        fun s hs => hres.2.2 s (hnotcons s hs).2⟩
    · rw [if_neg h1]
      by_cases h2 : slot ∈ acc.emitted
      · rw [if_pos h2]
        have hres := ih acc hinv hnd (fun s hs => hfresh s (by simp [mkeys] at hs ⊢; exact Or.inr hs))
        exact ⟨hres.1,
          fun s hs => hres.2.1 s (hnotcons s hs).2,
          fun s hs => hres.2.2 s (hnotcons s hs).2⟩
      · rw [if_neg h2]
        set cv : Int := selectAxisValue rv with hcv
        by_cases h3 : mfindD acc.last_out slot 0 ≠ cv
        · rw [if_pos h3]
          have hslot_fresh : mfindD acc.last_out slot 0 = mfindD L0 slot 0 :=
            hfresh slot (by simp [mkeys])
          have hfresh' : ∀ (lo : List (VirtualSlot × Int)), ∀ s ∈ mkeys rest,
              mfindD (minsert lo slot cv) s 0 = mfindD lo s 0 := by
            intro lo s hs
            exact mfindD_minsert_other _ _ _ _ _ (hne_of_mem s hs)
          have hnotslot_events : ∀ p ∈ acc.events, p.1 ≠ slot := by
            intro p hp heq
            exact h2 (heq ▸ hinv.2.2.2 p hp)
          have hinv' : DrainInv L0
              { events := acc.events ++ [(slot, cv)],
                emitted := slot :: acc.emitted,
                last_out := minsert acc.last_out slot cv } := by
            refine ⟨?_, ?_, ?_, ?_⟩
            · intro p hp
              rcases List.mem_append.mp hp with hp | hp
              · exact hinv.1 p hp
              · rw [List.mem_singleton.mp hp]
                rw [← hslot_fresh]
                exact fun heq => h3 heq.symm
            · intro p hp
              rcases List.mem_append.mp hp with hp | hp
              · rw [mfindD_minsert_other _ _ _ _ _ (hnotslot_events p hp)]
                exact hinv.2.1 p hp
              · rw [List.mem_singleton.mp hp]
                exact mfindD_minsert_self _ _ _ _
            · have hkeys : mkeys (acc.events ++ [(slot, cv)])
                  = mkeys acc.events ++ [slot] := by
                simp [mkeys]
              rw [hkeys]
              refine nodup_append_singleton hinv.2.2.1 ?_
              intro hmem
              simp only [mkeys, List.mem_map] at hmem
              obtain ⟨p, hp, hps⟩ := hmem
              exact hnotslot_events p hp hps
            · intro p hp
              rcases List.mem_append.mp hp with hp | hp
              · exact List.mem_cons_of_mem _ (hinv.2.2.2 p hp)
              · rw [List.mem_singleton.mp hp]
                exact List.mem_cons_self _ _
          have hres := ih _ hinv' hnd (fun s hs => by
            show mfindD (minsert acc.last_out slot cv) s 0 = mfindD L0 s 0
            rw [hfresh' acc.last_out s hs]
            exact hfresh s (by simp [mkeys] at hs ⊢; exact Or.inr hs))
          refine ⟨hres.1, fun s hs => ?_, fun s hs => ?_⟩
          · rw [hres.2.1 s (hnotcons s hs).2]
            exact mfindD_minsert_other _ _ _ _ _ (hnotcons s hs).1
          · rw [hres.2.2 s (hnotcons s hs).2]
            simp only [List.mem_cons]
            exact ⟨fun h => h.elim (fun heq => absurd heq (hnotcons s hs).1) id,
              Or.inr⟩
        · rw [if_neg h3]
          have hres := ih acc hinv hnd (fun s hs => hfresh s (by simp [mkeys] at hs ⊢; exact Or.inr hs))
          exact ⟨hres.1,
            fun s hs => hres.2.1 s (hnotcons s hs).2,
            fun s hs => hres.2.2 s (hnotcons s hs).2⟩

/-! ### Mirror-step key structure -/

theorem mkeys_write_mirror_nodup (av : AxisValueMap) (code : Nat) (v : Int)
    (h : (mkeys av).Nodup) : (mkeys (write_mirror_value av code v)).Nodup := by
  unfold write_mirror_value
  by_cases hval : ¬ is_virtual_slot_valid ⟨SrcKind.Abs, code⟩ = true
  · rwa [if_pos hval]
  · rw [if_neg hval]
    exact nodup_mkeys_minsert h

theorem mem_mkeys_write_mirror {av : AxisValueMap} {code : Nat} {v : Int}
    {s : VirtualSlot} (hs : s ∈ mkeys (write_mirror_value av code v)) :
    s ∈ mkeys av ∨ s = ⟨SrcKind.Abs, code⟩ := by
  unfold write_mirror_value at hs
  by_cases hval : ¬ is_virtual_slot_valid ⟨SrcKind.Abs, code⟩ = true
  · rw [if_pos hval] at hs
    exact Or.inl hs
  · rw [if_neg hval] at hs
    exact mem_mkeys_minsert hs

theorem mirror_step_keys_nodup (brc : List (VirtualSlot × Nat))
    (av : AxisValueMap) (h : (mkeys av).Nodup) :
    (mkeys (mirror_step brc av)).Nodup := by
  simp only [mirror_step, mirror_button_to_axis]
  exact mkeys_write_mirror_nodup _ _ _
    (mkeys_write_mirror_nodup _ _ _
      (mkeys_write_mirror_nodup _ _ _
        (mkeys_write_mirror_nodup _ _ _ h)))

theorem mirror_step_keys_abs (brc : List (VirtualSlot × Nat))
    (av : AxisValueMap) (h : ∀ s ∈ mkeys av, s.kind = SrcKind.Abs) :
    ∀ s ∈ mkeys (mirror_step brc av), s.kind = SrcKind.Abs := by
  simp only [mirror_step, mirror_button_to_axis]
  intro s hs
  rcases mem_mkeys_write_mirror hs with hs | hs
  · rcases mem_mkeys_write_mirror hs with hs | hs
    · rcases mem_mkeys_write_mirror hs with hs | hs
      · rcases mem_mkeys_write_mirror hs with hs | hs
        · exact h s hs
        · rw [hs]
      · rw [hs]
    · rw [hs]
  · rw [hs]

/-! ### Claim C10 -/

/-- Claim C10: with the two button bindings (Stick, Button, BTN_TRIGGER) →
South and (Throttle, Button, BTN_TRIGGER) → South, the sequence press stick,
press throttle, release stick, release throttle — drained after each process
call — emits on slot South exactly two events: 1 after the first press and 0
after the last release, and nothing at the intermediate steps. -/
theorem fanin_or_emits_once :
    fanin_drain1.1 = [(⟨SrcKind.Key, BTN_SOUTH⟩, 1)]
    ∧ fanin_drain2.1 = []
    ∧ fanin_drain3.1 = []
    ∧ fanin_drain4.1 = [(⟨SrcKind.Key, BTN_SOUTH⟩, 0)] := by
  decide

/-! ### Claim C1 -/

/-- Claim C1, counterexample: with DPAD_LEFT held, the drain after also
pressing DPAD_RIGHT computes the mirrored HatX value as +1 and emits +1 — not
0 as claimed — and the drain after then releasing DPAD_LEFT emits no HatX
event at all (HatX stays +1), not +1 as claimed. -/
theorem dpad_both_pressed_counterexample :
    get_button_pressed dpad_state2.button_refcounts BTN_DPAD_LEFT = true
    ∧ get_button_pressed dpad_state2.button_refcounts BTN_DPAD_RIGHT = true
    ∧ dpadHatX dpad_state2.button_refcounts = 1
    ∧ dpad_drain2.1 =
        [(⟨SrcKind.Key, BTN_DPAD_RIGHT⟩, 1), (⟨SrcKind.Abs, ABS_HAT0X⟩, 1)]
    ∧ (⟨SrcKind.Abs, ABS_HAT0X⟩, (0 : Int)) ∉ dpad_drain2.1
    ∧ dpad_drain1.1 =
        [(⟨SrcKind.Key, BTN_DPAD_LEFT⟩, 1), (⟨SrcKind.Abs, ABS_HAT0X⟩, -1)]
    ∧ dpad_drain3.1 = [(⟨SrcKind.Key, BTN_DPAD_LEFT⟩, 0)] := by
  decide

/-- Claim C1, amended: in every resolver state in which the virtual D-pad
LEFT and RIGHT buttons are both pressed, the drain computes the mirrored HatX
value as +1 (RIGHT takes precedence over LEFT); concretely, with DPAD_LEFT
held, pressing DPAD_RIGHT makes HatX emit +1, and releasing DPAD_LEFT emits
nothing further on HatX. -/
theorem dpad_both_pressed_amended (st : ResolverState)
    (_hl : get_button_pressed st.button_refcounts BTN_DPAD_LEFT = true)
    (hr : get_button_pressed st.button_refcounts BTN_DPAD_RIGHT = true) :
    mfindD (mfindD (mirror_step st.button_refcounts st.axis_values)
        ⟨SrcKind.Abs, ABS_HAT0X⟩ []) Role.Rudder none = some 1 := by
  have hx : dpadHatX st.button_refcounts = 1 := by
    simp [dpadHatX, hr]
  simp only [mirror_step, mirror_button_to_axis]
  rw [write_mirror_value_valid _ _ _ (by decide),
      write_mirror_value_valid _ _ _ (by decide),
      write_mirror_value_valid _ _ _ (by decide),
      write_mirror_value_valid _ _ _ (by decide)]
  rw [mfindD_minsert_other _ _ _ _ _ (by decide),
      mfindD_minsert_other _ _ _ _ _ (by decide),
      mfindD_minsert_other _ _ _ _ _ (by decide),
      mfindD_minsert_self, mfindD_minsert_self, hx]

/-- Claim C1, witness for the amended theorem at the concrete two-button
scenario state. -/
theorem dpad_both_pressed_amended_witness :
    mfindD (mfindD (mirror_step dpad_state2.button_refcounts dpad_state2.axis_values)
        ⟨SrcKind.Abs, ABS_HAT0X⟩ []) Role.Rudder none = some 1 :=
  dpad_both_pressed_amended dpad_state2 (by decide) (by decide)

/-! ### Claim C2 -/

/-- Claim C2, counterexample: a Rudder-role analog binding onto ABS_RZ caches
its transformed value 255 under `Role::Rudder`, and the drain-time mirror
write for the BTN_TR2 trigger click overwrites it with 0, so the value is
never emitted — refuting that a cached value from a real analog source of any
role takes priority over (and is not overwritten by) the mirror writes. -/
theorem rudder_mirror_counterexample :
    mfindD (mfindD rudder_rz_state.axis_values ⟨SrcKind.Abs, ABS_RZ⟩ [])
        Role.Rudder none = some 255
    ∧ rudder_rz_drain.1 = []
    ∧ mfindD (mfindD rudder_rz_drain.2.axis_values ⟨SrcKind.Abs, ABS_RZ⟩ [])
        Role.Rudder none = some 0 := by
  with_unfolding_all decide

/-- Claim C2, amended: the synthetic mirror values are stored under
`Role::Rudder`, the lowest-priority role, so cached values from Stick- or
Throttle-role analog sources are untouched by the mirror writes and take
priority over them at drain time; a Rudder-role analog cached value on a
mirrored slot is, however, overwritten by the mirror write.  Concretely a
Throttle-role analog value 255 on ABS_Z is emitted over the mirror write. -/
theorem mirror_lowest_priority_amended :
    (∀ brc av slot,
      mfindD (mfindD (mirror_step brc av) slot []) Role.Stick none
        = mfindD (mfindD av slot []) Role.Stick none
      ∧ mfindD (mfindD (mirror_step brc av) slot []) Role.Throttle none
        = mfindD (mfindD av slot []) Role.Throttle none)
    ∧ throttle_z_drain.1 = [(⟨SrcKind.Abs, ABS_Z⟩, 255)]
    ∧ mfindD (mfindD throttle_z_drain.2.axis_values ⟨SrcKind.Abs, ABS_Z⟩ [])
        Role.Throttle none = some 255
    ∧ mfindD (mfindD throttle_z_drain.2.axis_values ⟨SrcKind.Abs, ABS_Z⟩ [])
        Role.Rudder none = some 0 := by
  refine ⟨fun brc av slot => ?_, by with_unfolding_all decide,
    by with_unfolding_all decide, by with_unfolding_all decide⟩
  constructor
  · rw [mirror_step_preserves_role brc av slot Role.Stick (by decide)]
  · rw [mirror_step_preserves_role brc av slot Role.Throttle (by decide)]

/-! ### Claim C3 -/

/-- Claim C3, counterexample: an offline optional device whose backoff has
long expired (10 s since the last attempt, 500 ms backoff) is returned
unchanged by `attempt_device_reconnection` with no reopen attempted, while
the identical non-optional device is reopened — refuting that an optional
offline source follows the normal reconnection loop. -/
theorem optional_reconnect_counterexample :
    attempt_device_reconnection true 10000 offline_optional_device
      = (offline_optional_device, false)
    ∧ (10000 : Int) - offline_optional_device.last_reconnect_attempt
        ≥ offline_optional_device.reconnect_backoff_ms
    ∧ attempt_device_reconnection true 10000
        { offline_optional_device with optional := false }
      = ({ offline_optional_device with
            optional := false, online := true, last_reconnect_attempt := 10000 },
         true) := by
  decide

/-- Claim C3, amended: an offline source marked optional is never reopened by
`attempt_device_reconnection` (the function returns immediately); only a
non-optional offline source follows the reconnection loop, attempting a
reopen whenever the time since its last attempt has reached its current
backoff. -/
theorem optional_reconnect_amended :
    (∀ (d : InputDevice) (now : Int) (ok : Bool), d.optional = true →
      attempt_device_reconnection ok now d = (d, false))
    ∧ (∀ (d : InputDevice) (now : Int) (ok : Bool),
        d.online = false → d.optional = false →
        now - d.last_reconnect_attempt ≥ d.reconnect_backoff_ms →
        (attempt_device_reconnection ok now d).2 = true) := by
  constructor
  · intro d now ok hopt
    simp [attempt_device_reconnection, hopt]
  · intro d now ok hon hopt helapsed
    simp only [attempt_device_reconnection, hon, hopt, Bool.or_self, if_false,
      if_pos helapsed]
    cases ok <;> simp

/-- Claim C3, witness for the amended theorem: the optional device is skipped
and the identical required device is attempted, at the same expired-backoff
instant. -/
theorem optional_reconnect_amended_witness :
    attempt_device_reconnection true 10000 offline_optional_device
      = (offline_optional_device, false)
    ∧ (attempt_device_reconnection true 10000
        { offline_optional_device with optional := false }).2 = true :=
  ⟨optional_reconnect_amended.1 offline_optional_device 10000 true (by decide),
   optional_reconnect_amended.2 { offline_optional_device with optional := false }
     10000 true (by decide) (by decide) (by decide)⟩

/-! ### Claim C6 -/

/-- Claim C6, counterexample: two consecutive `EV_SYN` input events read from
an idle source each cause a sync marker to be written although no virtual
events were emitted, so the wire stream holds two sync markers in a row with
no intervening output events — refuting that a sync marker is never written
twice in a row. -/
theorem syn_passthrough_counterexample :
    syn_run.2 = [WireItem.sync, WireItem.sync] := by
  decide

/-! ### Claim C7 -/

/-- Claim C7, counterexample: a binding whose destination slot (Key, 30) is
outside the virtual-controller contract is retained in the constructed
resolver, and processing its source input mutates the resolver state (the
invalid slot acquires a positive refcount) — refuting that such a binding is
not retained and that processing it has no effect on resolver state. -/
theorem invalid_dst_counterexample :
    is_virtual_slot_valid ⟨SrcKind.Key, 30⟩ = false
    ∧ (init_resolver invalid_dst_bindings).bindings = invalid_dst_bindings
    ∧ (init_resolver invalid_dst_bindings).button_refcounts = []
    ∧ mfind? invalid_dst_state.button_refcounts ⟨SrcKind.Key, 30⟩ = some 1
    ∧ invalid_dst_state.button_refcounts
        ≠ (init_resolver invalid_dst_bindings).button_refcounts := by
  decide

/-- Claim C6, amended: within one loop iteration, every non-empty group of
written virtual events is followed by exactly one sync marker (the wire
output ends in the single sync of the iteration); however a sync is also
written whenever the input event was an `EV_SYN`, even with no output events,
so at most one — but possibly an event-less — sync per iteration. -/
theorem sync_discipline_amended (st : ResolverState) (role : Role)
    (etype code : Nat) (value : Int) :
    (((handle_event st role etype code value).2.filter WireItem.isSync).length ≤ 1)
    ∧ (∀ s v, WireItem.ev s v ∈ (handle_event st role etype code value).2 →
        (handle_event st role etype code value).2.getLast? = some WireItem.sync
        ∧ ((handle_event st role etype code value).2.filter
            WireItem.isSync).length = 1) := by
  unfold handle_event
  generalize get_pending_events (dispatch_input st role etype code value) = drained
  obtain ⟨pending, st2⟩ := drained
  by_cases hc : (decide (pending ≠ []) || decide (etype = EV_SYN)) = true
  · rw [if_pos hc]
    simp only [List.filter_append, filter_isSync_map_ev, List.nil_append]
    refine ⟨by simp [WireItem.isSync], fun s v _ => ⟨List.getLast?_concat _, ?_⟩⟩
    simp [WireItem.isSync]
  · rw [if_neg hc]
    have hpe : pending = [] := by
      by_contra hne
      exact hc (by simp [hne])
    simp [hpe]

/-- Claim C6, witness for the amended theorem at an event-producing
iteration: pressing the bound D-pad-up button yields a wire group ending in
exactly one sync. -/
theorem sync_discipline_witness :
    (handle_event (init_resolver syn_witness_bindings) Role.Stick EV_KEY
        BTN_DPAD_UP 1).2.getLast? = some WireItem.sync
    ∧ ((handle_event (init_resolver syn_witness_bindings) Role.Stick EV_KEY
        BTN_DPAD_UP 1).2.filter WireItem.isSync).length = 1 :=
  (sync_discipline_amended (init_resolver syn_witness_bindings) Role.Stick
      EV_KEY BTN_DPAD_UP 1).2 ⟨SrcKind.Key, BTN_DPAD_UP⟩ 1 (by decide)

/-- Claim C7, amended: bindings to non-contract destination slots are kept in
the binding vector and mutate per-slot resolver state when processed, but
both drain loops skip invalid slots, so every drained event's slot satisfies
`is_virtual_slot_valid` and the invalid-destination scenario drains nothing. -/
theorem invalid_dst_amended :
    (∀ st : ResolverState,
      ((get_pending_events st).1.all (fun p => is_virtual_slot_valid p.1)) = true)
    ∧ (get_pending_events invalid_dst_state).1 = [] := by
  constructor
  · intro st
    rw [List.all_eq_true]
    intro p hp
    exact drain_events_valid st p hp
  · decide

/-! ### Claim C4 -/

/-- Claim C4, counterexample: the same calibration (center − min = 600 > ε,
max − center = 400 > ε, deadzone 50) is classified centered for a Stick-role
source but unidirectional for a Throttle-role source, and zeroing only the
deadzone radius flips the Stick classification — so the classification
depends on the role and on `deadzone_radius`, not only on the spec's ε-rule.
Observably, the Throttle transform maps the calibration center to 20 (the
single-segment image), not 0. -/
theorem classification_counterexample :
    axis_is_centered Role.Stick centered_cal = true
    ∧ axis_is_centered Role.Throttle centered_cal = false
    ∧ axis_is_centered Role.Stick ⟨0, 1000, 600, 0⟩ = false
    ∧ apply_axis_transform [(Role.Throttle, [(ABS_Z, centered_cal)])] 600
        range100_xform Role.Throttle ABS_Z = 20
    ∧ apply_axis_transform [(Role.Stick, [(ABS_X, centered_cal)])] 600
        range100_xform Role.Stick ABS_X = 0 := by
  with_unfolding_all decide

/-- Claim C4, amended: for every installed calibration the transform uses the
two-segment centered mapping exactly when `axis_is_centered` holds, and that
classification holds iff the role is Stick or Rudder, the center exceeds
`observed_min + 10`, and `deadzone_radius` is positive (the `observed_max`
side is never examined). -/
theorem classification_amended :
    (∀ (role : Role) (cal : AxisCalibration),
      axis_is_centered role cal = true ↔
        ((role = Role.Stick ∨ role = Role.Rudder)
          ∧ cal.observed_min + 10 < cal.center_value ∧ 0 < cal.deadzone_radius))
    ∧ (∀ (cals : CalibrationMap) (value : Int) (xform : AxisTransform)
        (role : Role) (code : Nat) (bc : List (Nat × AxisCalibration))
        (cal : AxisCalibration),
        mfind? cals role = some bc → mfind? bc code = some cal →
        apply_axis_transform cals value xform role code =
          clampInt xform.min_out xform.max_out (apply_invert xform
            (if axis_is_centered role cal then centered_raw cal xform value
             else unidirectional_raw cal xform value))) := by
  constructor
  · intro role cal
    simp [axis_is_centered, and_assoc]
  · intro cals value xform role code bc cal h1 h2
    simp only [apply_axis_transform, h1, h2]

/-- Claim C4, witness for the amended theorem at the Throttle-role
counterexample calibration (classification false, single-segment branch). -/
theorem classification_amended_witness :
    apply_axis_transform [(Role.Throttle, [(ABS_Z, centered_cal)])] 600
        range100_xform Role.Throttle ABS_Z =
      clampInt range100_xform.min_out range100_xform.max_out
        (apply_invert range100_xform
          (if axis_is_centered Role.Throttle centered_cal then
            centered_raw centered_cal range100_xform 600
           else unidirectional_raw centered_cal range100_xform 600)) :=
  classification_amended.2 [(Role.Throttle, [(ABS_Z, centered_cal)])] 600
    range100_xform Role.Throttle ABS_Z [(ABS_Z, centered_cal)] centered_cal
    (by decide) (by decide)

/-! ### Claim C5 -/

/-- Claim C5, counterexample: a centered calibrated transform with
`invert = true` over the full stick range maps the calibration center
(inside the deadzone) to −1, not 0: the deadzone zero is reflected to
`max_out + min_out = −1` by the inversion step. -/
theorem deadzone_invert_counterexample :
    apply_axis_transform [(Role.Stick, [(ABS_X, stick_cal)])] 600
        inverted_stick_xform Role.Stick ABS_X = -1
    ∧ axis_is_centered Role.Stick stick_cal = true
    ∧ |(600 : Int) - stick_cal.center_value| < stick_cal.deadzone_radius := by
  with_unfolding_all decide

/-- Claim C5, amended: for every centered calibrated axis transform, a raw
value whose distance from the calibration center is below the deadzone radius
(the center itself included, since centered classification forces a positive
radius) produces pre-clamp output 0 when `invert` is false and
`max_out + min_out` when `invert` is true; in particular the final output is
exactly 0 whenever `invert` is false and `min_out ≤ 0 ≤ max_out`. -/
theorem deadzone_center_amended (cals : CalibrationMap) (value : Int)
    (xform : AxisTransform) (role : Role) (code : Nat)
    (bc : List (Nat × AxisCalibration)) (cal : AxisCalibration)
    (h1 : mfind? cals role = some bc) (h2 : mfind? bc code = some cal)
    (hcen : axis_is_centered role cal = true)
    (hdz : |value - cal.center_value| < cal.deadzone_radius) :
    apply_axis_transform cals value xform role code
      = clampInt xform.min_out xform.max_out
          (if xform.invert then xform.max_out + xform.min_out else 0)
    ∧ (xform.invert = false → xform.min_out ≤ 0 → 0 ≤ xform.max_out →
        apply_axis_transform cals value xform role code = 0) := by
  have hmain : apply_axis_transform cals value xform role code
      = clampInt xform.min_out xform.max_out
          (if xform.invert then xform.max_out + xform.min_out else 0) := by
    simp only [apply_axis_transform, h1, h2, hcen, if_true, centered_raw,
      if_pos hdz, apply_invert]
    cases hx : xform.invert <;> simp
  refine ⟨hmain, fun hinv hlo hhi => ?_⟩
  rw [hmain, hinv]
  simp only [Bool.false_eq_true, if_false, clampInt]
  rw [min_eq_right hhi, max_eq_right hlo]

/-- Claim C5, witness for the amended theorem: the §8-scenario-3 calibration
with the non-inverted full stick range maps the center 600 to exactly 0. -/
theorem deadzone_center_amended_witness :
    apply_axis_transform [(Role.Stick, [(ABS_X, stick_cal)])] 600
        { min_out := -32768, max_out := 32767 } Role.Stick ABS_X = 0 :=
  (deadzone_center_amended [(Role.Stick, [(ABS_X, stick_cal)])] 600
      { min_out := -32768, max_out := 32767 } Role.Stick ABS_X
      [(ABS_X, stick_cal)] stick_cal (by decide) (by decide) (by decide)
      (by decide)).2 rfl (by decide) (by decide)

/-! ### Claim C9 -/

/-- Claim C9: for every axis transform invocation with a calibration present
and `min_out ≤ max_out`, the output lies in `[min_out, max_out]` for every
raw input value and both invert settings: the final clamp is the last step of
the calibrated path. -/
theorem calibrated_output_clamped (cals : CalibrationMap) (value : Int)
    (xform : AxisTransform) (role : Role) (code : Nat)
    (bc : List (Nat × AxisCalibration)) (cal : AxisCalibration)
    (h1 : mfind? cals role = some bc) (h2 : mfind? bc code = some cal)
    (hrange : xform.min_out ≤ xform.max_out) :
    xform.min_out ≤ apply_axis_transform cals value xform role code
    ∧ apply_axis_transform cals value xform role code ≤ xform.max_out := by
  simp only [apply_axis_transform, h1, h2, clampInt]
  exact ⟨le_max_left _ _, max_le hrange (min_le_left _ _)⟩

/-- Claim C9, witness: an out-of-range raw value (9999, beyond the observed
maximum 1023) under the inverted full-range transform stays within
[−32768, 32767]. -/
theorem calibrated_output_clamped_witness :
    (-32768 : Int) ≤ apply_axis_transform
        [(Role.Stick, [(ABS_X, ⟨0, 1023, 600, 5⟩)])] 9999
        { invert := true, min_out := -32768, max_out := 32767 } Role.Stick ABS_X
    ∧ apply_axis_transform
        [(Role.Stick, [(ABS_X, ⟨0, 1023, 600, 5⟩)])] 9999
        { invert := true, min_out := -32768, max_out := 32767 } Role.Stick ABS_X
      ≤ 32767 :=
  calibrated_output_clamped [(Role.Stick, [(ABS_X, ⟨0, 1023, 600, 5⟩)])] 9999
    { invert := true, min_out := -32768, max_out := 32767 } Role.Stick ABS_X
    [(ABS_X, ⟨0, 1023, 600, 5⟩)] ⟨0, 1023, 600, 5⟩ (by decide) (by decide)
    (by decide)

/-! ### Claim C8 -/

/-- Claim C8: for every drain from a well-formed resolver state, the returned
event list contains at most one entry per `VirtualSlot`, and every returned
event `(s, v)` has `v ≠ last_output[s]` relative to the pre-drain state and
`last_output[s] = v` in the post-drain state. -/
theorem drain_edge_detection (st : ResolverState) (hwf : ResolverWF st) :
    (mkeys (get_pending_events st).1).Nodup
    ∧ ∀ p ∈ (get_pending_events st).1,
        p.2 ≠ mfindD st.last_output_values p.1 0
        ∧ mfindD (get_pending_events st).2.last_output_values p.1 0 = p.2 := by
  obtain ⟨hbnd, hbk, hand, hak⟩ := hwf
  have hinv0 : DrainInv st.last_output_values ⟨[], [], st.last_output_values⟩ :=
    ⟨by simp, by simp, by simp [mkeys], by simp⟩
  have hB := drainButtonsLoop_spec st.last_output_values st.button_refcounts
    ⟨[], [], st.last_output_values⟩ hinv0 hbnd (fun s _ => rfl)
  have hodup : (mkeys (mirror_step st.button_refcounts st.axis_values)).Nodup :=
    mirror_step_keys_nodup _ _ hand
  have habs : ∀ s ∈ mkeys (mirror_step st.button_refcounts st.axis_values),
      s.kind = SrcKind.Abs := mirror_step_keys_abs _ _ hak
  have hdisj : ∀ s ∈ mkeys (mirror_step st.button_refcounts st.axis_values),
      s ∉ mkeys st.button_refcounts := by
    intro s hs hmem
    have h1 := habs s hs
    have h2 := hbk s hmem
    rw [h1] at h2
    exact absurd h2 (by decide)
  have hfreshA : ∀ s ∈ mkeys (mirror_step st.button_refcounts st.axis_values),
      mfindD (drainButtonsLoop st.button_refcounts
        ⟨[], [], st.last_output_values⟩).last_out s 0
        = mfindD st.last_output_values s 0 := by
    intro s hs
    exact hB.2.1 s (hdisj s hs)
  have hA := drainAxesLoop_spec st.last_output_values
    (mirror_step st.button_refcounts st.axis_values)
    (drainButtonsLoop st.button_refcounts ⟨[], [], st.last_output_values⟩)
    hB.1 hodup hfreshA
  refine ⟨?_, fun p hp => ?_⟩
  · have := hA.1.2.2.1
    simpa [get_pending_events] using this
  · have hp' : p ∈ (drainAxesLoop (mirror_step st.button_refcounts st.axis_values)
        (drainButtonsLoop st.button_refcounts ⟨[], [], st.last_output_values⟩)).events := by
      simpa [get_pending_events] using hp
    exact ⟨hA.1.1 p hp', by simpa [get_pending_events] using hA.1.2.1 p hp'⟩

/-- Claim C8, witness: the well-formedness hypothesis holds at the concrete
one-binding pressed state, whose drain emits `(South, 1)` with the pre/post
`last_output` conditions. -/
theorem drain_edge_detection_witness :
    ResolverWF edge_witness_state
    ∧ ((1 : Int) ≠ mfindD edge_witness_state.last_output_values
          ⟨SrcKind.Key, BTN_SOUTH⟩ 0
        ∧ mfindD (get_pending_events edge_witness_state).2.last_output_values
            ⟨SrcKind.Key, BTN_SOUTH⟩ 0 = 1) :=
  ⟨by decide,
   (drain_edge_detection edge_witness_state (by decide)).2
     (⟨SrcKind.Key, BTN_SOUTH⟩, 1) (by decide)⟩

end ThrustyARMA
